import Mathlib

/-!
Shallow embedding of the credential-verification and token-lifecycle core of
`src/controllers/user.controllers.js` (the Session Manager of the spec):
`generateAccessTokenAndRefreshToken`, `loginUser`, `logoutPage`,
`generateAndAccessToken` (the refresh handler) and `changePassword`.

Modelling conventions:
* JavaScript string values that may be either plain strings (ids, body
  fields) or signed tokens are modelled by `JsStr`; a signed token is a
  distinct textual format, so a token string never coincides with a plain
  database id string.
* `undefined` is `Option.none`; JS truthiness of string values is explicit.
* The user store (Mongoose `User` collection) is a `List StoredUser`;
  queries and updates follow Mongoose's documented casting rules
  (`undefined` values are stripped from both query filters and update
  documents).
* Each Express handler returns an `HResult`: a JSON success, a thrown
  `ApiError` propagated to the error middleware, or `silent` when the
  handler resolves without sending any response and without throwing
  (the empty `catch {}` of the refresh handler).
* The HTTP/cookie transport and the `asyncHandler` wrapper are boundary
  details; handlers take their request fields directly.
-/

/-- A JavaScript string value: either a plain string literal, or a signed
token (a JWT), which textually encodes a payload value, an expiry and the
secret it was signed with.  A signed token's text is never equal to a plain
string such as a database `_id`. -/
inductive JsStr where
  | lit : String → JsStr
  | jwt : JsStr → Nat → String → JsStr
deriving DecidableEq

/-- JS truthiness of a string value: only the empty string is falsy. -/
def JsStr.truthy : JsStr → Bool
  | JsStr.lit s => s != ""
  | JsStr.jwt _ _ _ => true

/-- Modelled from the spec: `ApiError`, the repository's typed error carrier
(`utils/ApiError.js`, not under `src/`), holding an HTTP status code and a
message.  The controller file uses it without importing it; we model the
constructor it plainly intends to call. -/
structure ApiError where
  statusCode : Nat
  message : String
deriving DecidableEq

/-- A value thrown inside a handler: an `ApiError`, a `jsonwebtoken`
verification error (bad signature or expired token), or a `TypeError` from
dereferencing `null`/`undefined`. -/
inductive Thrown where
  | api : ApiError → Thrown
  | jwtError : Thrown
  | typeError : Thrown
deriving DecidableEq

/-- Outcome of an Express handler: a JSON success response, a thrown error
propagated to the caller, or `silent` — the handler resolved producing
neither a response nor an error (the empty `catch {}` path). -/
inductive HResult (α : Type) where
  | ok : α → HResult α
  | err : ApiError → HResult α
  | silent : HResult α
deriving DecidableEq

def HResult.isOk {α : Type} : HResult α → Bool
  | HResult.ok _ => true
  | _ => false

/-- Observe the thrown value of a try-block result. -/
def thrownOf {α : Type} : Except Thrown α → Option Thrown
  | Except.error e => some e
  | Except.ok _ => none

/-- A persisted user record, following the spec's User data model (§3):
identity fields, hashed password, and the current `refreshToken`.  Line 12
of the controller also writes a `user.accessToken` path, but the schema
(declared in the missing `models/user.model.js`; modelled from the spec,
whose User record has no access-token field) does not contain it, and
Mongoose's default strict mode drops writes to non-schema paths at save. -/
structure StoredUser where
  mongoId : JsStr
  username : String
  email : String
  fullName : String
  password : String
  refreshToken : Option JsStr
deriving DecidableEq

/-- `User.findById(id)`. -/
def findById (db : List StoredUser) (id : JsStr) : Option StoredUser :=
  db.find? (fun u => u.mongoId == id)

/-- `user.save(...)` / `User.findByIdAndUpdate(id, ...)`: replace the
record(s) carrying this id by the updated document. -/
def updateById (db : List StoredUser) (id : JsStr) (f : StoredUser → StoredUser) :
    List StoredUser :=
  db.map (fun u => if u.mongoId = id then f u else u)

/-- One branch of a Mongoose query filter on a single field.  Mongoose
strips `undefined` values from query filters, so an absent criterion, e.g.
`{ email: undefined }`, casts to the empty filter `{}`, which matches every
document. -/
def matchesCriterion (crit : Option String) (value : String) : Bool :=
  match crit with
  | none => true
  | some s => value == s

/-- `User.findOne({ $or: [{ email }, { username }] })`. -/
def findOneByEmailOrUsername (db : List StoredUser)
    (email username : Option String) : Option StoredUser :=
  db.find? (fun u =>
    matchesCriterion email u.email || matchesCriterion username u.username)

/-- Modelled from the spec: the password hashing applied by the pre-save
hook of the missing `models/user.model.js` — an injective one-way encoding
of the plaintext. -/
def hashPassword (p : String) : String :=
  "bcrypt$" ++ p

/-- Modelled from the spec: `user.isPasswordCorrect(plaintext)` of the
missing `models/user.model.js` — the Credential Store's compare capability,
true exactly when the plaintext hashes to the stored hash. -/
def isPasswordCorrect (u : StoredUser) (plaintext : String) : Bool :=
  u.password == hashPassword plaintext

/-- Access-token TTL (process configuration; illustrative constant). -/
def ACCESS_TOKEN_EXPIRY : Nat := 15

/-- Refresh-token TTL (process configuration; illustrative constant). -/
def REFRESH_TOKEN_EXPIRY : Nat := 240

/-- Access-token signing secret (process configuration). -/
def ACCESS_TOKEN_SECRET : String := "access-secret"

/-- Refresh-token signing secret; named after the environment variable the
source reads (`process.env.REFRESS_TOKEN_SECRET`, line 192).  The missing
`user.model.js` signs refresh tokens with the same configured secret. -/
def REFRESS_TOKEN_SECRET : String := "refresh-secret"

/-- Modelled from the spec: `jwt.verify(token, secret)` — returns the
embedded identity claim when the token was signed with `secret` and has not
expired; otherwise the library throws (here: `none`). -/
def jwtVerify (t : JsStr) (secret : String) (now : Nat) : Option JsStr :=
  match t with
  | JsStr.lit _ => none
  | JsStr.jwt payload exp sig =>
    if sig = secret then (if now < exp then some payload else none) else none

/-- Lines 6–23: `generateAccessTokenAndRefreshToken(userId)`.  Looks the
user up, signs a fresh access and refresh token for them, assigns
`user.accessToken` and `user.refreshToken` on the document, saves it, and
returns the pair.  The `accessToken` assignment targets a path absent from
the schema, so the save persists only `refreshToken` (strict mode drops
the other write).  Its own `catch` converts any failure (including the
`TypeError` when the user is not found) into `ApiError(505, ...)`. -/
def generateAccessTokenAndRefreshToken (db : List StoredUser) (now : Nat)
    (userId : JsStr) : Except ApiError (JsStr × JsStr × List StoredUser) :=
  match findById db userId with
  | none =>
    Except.error ⟨505, "Something went wrong on access and refresh token "⟩
  | some user =>
    let accessToken := JsStr.jwt user.mongoId (now + ACCESS_TOKEN_EXPIRY) ACCESS_TOKEN_SECRET
    let refreshToken := JsStr.jwt user.mongoId (now + REFRESH_TOKEN_EXPIRY) REFRESS_TOKEN_SECRET
    let user2 := { user with refreshToken := some refreshToken }
    Except.ok (accessToken, refreshToken, updateById db user.mongoId (fun _ => user2))

/-- JS truthiness of an optional string (`undefined` and `""` are falsy). -/
def jsTruthyStr : Option String → Bool
  | none => false
  | some s => s != ""

/-- JS `a || b` on optional plain strings. -/
def jsOrStr (a b : Option String) : Option String :=
  if jsTruthyStr a then a else b

/-- JS `a || b` on optional string values that may be tokens. -/
def jsOrTok (a b : Option JsStr) : Option JsStr :=
  match a with
  | some t => if t.truthy then some t else b
  | none => b

/-- The set of characters `String.prototype.trim` removes (the ones
representable in request bodies here). -/
def isJsSpace (c : Char) : Bool :=
  c == ' ' || c == '\t' || c == '\n' || c == '\r'

/-- JS `s.trim()`, modelled on the character list of the string. -/
def jsTrim (s : String) : String :=
  String.mk (((s.data.dropWhile isJsSpace).reverse.dropWhile isJsSpace).reverse)

/-- Line 102: `[email || username].some((field) => field?.trim() === "")`.
The single array element is `email || username`; the predicate is false on
`undefined` (optional chaining yields `undefined`, which is not `""`). -/
def loginFieldCheckFails (email username : Option String) : Bool :=
  match jsOrStr email username with
  | none => false
  | some s => jsTrim s == ""

/-- The first *present* identifier value — `email` when the request carries
an email field (even an empty one), otherwise `username`.  This follows the
claim's words; the source's `email || username` instead skips a present but
falsy `email`. -/
def firstPresentIdentifier (email username : Option String) : Option String :=
  match email with
  | some e => some e
  | none => username

/-- The public user projection produced by
`User.findById(user._id).select("-password", refreshToken)` (lines
126–129): Mongoose `Query.select` takes a single projection argument, so
only `password` is excluded; the stray second argument is ignored, and the
`refreshToken` field remains in the projection. -/
structure UserProjection where
  mongoId : JsStr
  username : String
  email : String
  fullName : String
  refreshToken : Option JsStr
deriving DecidableEq

def projectNoPassword (u : StoredUser) : UserProjection :=
  { mongoId := u.mongoId, username := u.username, email := u.email,
    fullName := u.fullName, refreshToken := u.refreshToken }

structure LoginReq where
  email : Option String
  username : Option String
  password : String

/-- The JSON body of a successful login response (the cookie values mirror
`accessToken`/`refreshToken`). -/
structure LoginResponse where
  user : Option UserProjection
  accessToken : JsStr
  refreshToken : JsStr
deriving DecidableEq

/-- Lines 99–151: the `try` block of `loginUser`. -/
def loginUserTry (db : List StoredUser) (now : Nat) (req : LoginReq) :
    Except Thrown (LoginResponse × List StoredUser) :=
  if loginFieldCheckFails req.email req.username then
    Except.error (Thrown.api ⟨404, "fields are required"⟩)
  else
    match findOneByEmailOrUsername db req.email req.username with
    | none => Except.error (Thrown.api ⟨404, "fields are required"⟩)
    | some user =>
      if isPasswordCorrect user req.password then
        Except.error (Thrown.api ⟨404, "Password doesn`t match"⟩)
      else
        match generateAccessTokenAndRefreshToken db now user.mongoId with
        | Except.error e => Except.error (Thrown.api e)
        | Except.ok (accessToken, refreshToken, db2) =>
          let loggedInUser := (findById db2 user.mongoId).map projectNoPassword
          Except.ok ({ user := loggedInUser, accessToken := accessToken,
                       refreshToken := refreshToken }, db2)

/-- Lines 98–155: `loginUser`.  The surrounding `catch` replaces whatever
was thrown by `ApiError(500, "Error in login page")`. -/
def loginUser (db : List StoredUser) (now : Nat) (req : LoginReq) :
    HResult LoginResponse × List StoredUser :=
  match loginUserTry db now req with
  | Except.ok (r, db2) => (HResult.ok r, db2)
  | Except.error _ => (HResult.err ⟨500, "Error in login page"⟩, db)

/-- A value placed in a `$set` update document for the `refreshToken`
field. -/
inductive UpdateVal where
  | undef : UpdateVal
  | null : UpdateVal
  | val : JsStr → UpdateVal

/-- Apply `$set: { refreshToken: v }` to a record.  Mongoose removes keys
whose value is `undefined` from update documents (documented behaviour: to
clear a field one must use `$unset` or `null`), so `$set` with `undefined`
writes nothing. -/
def applyRefreshTokenSet : UpdateVal → StoredUser → StoredUser
  | UpdateVal.undef, u => u
  | UpdateVal.null, u => { u with refreshToken := none }
  | UpdateVal.val t, u => { u with refreshToken := some t }

/-- Lines 157–178: `logoutPage`.  Runs
`findByIdAndUpdate(req.user._id, { $set: { refreshToken: undefined } })`,
clears the two cookies, and responds with a 200 success. -/
def logoutPage (db : List StoredUser) (userId : JsStr) :
    HResult Unit × List StoredUser :=
  (HResult.ok (), updateById db userId (applyRefreshTokenSet UpdateVal.undef))

/-- The refresh request: the token may arrive in the `refreshToken` cookie
or in the request body (lines 183–184). -/
structure RefreshReq where
  cookieRefreshToken : Option JsStr
  bodyRefreshToken : Option JsStr

/-- The JSON body of a successful refresh response.  Its `refreshToken`
field holds the destructured `newRefreshToken` binding, which is not a key
of the object `generateAccessTokenAndRefreshToken` returns, hence
`undefined`. -/
structure RefreshResponse where
  accessToken : JsStr
  refreshToken : Option JsStr
deriving DecidableEq

/-- Lines 181–223: the `try` block of the refresh handler
`generateAndAccessToken`. -/
def generateAndAccessTokenTry (db : List StoredUser) (now : Nat)
    (req : RefreshReq) : Except Thrown (RefreshResponse × List StoredUser) :=
  match jsOrTok req.cookieRefreshToken req.bodyRefreshToken with
  | none => Except.error (Thrown.api ⟨401, "Unauthorised request"⟩)
  | some tok =>
    if tok.truthy = false then
      Except.error (Thrown.api ⟨401, "Unauthorised request"⟩)
    else
      match jwtVerify tok REFRESS_TOKEN_SECRET now with
      | none => Except.error Thrown.jwtError
      | some decodedId =>
        match findById db decodedId with
        | none => Except.error (Thrown.api ⟨401, "Invalid refresh token"⟩)
        | some user =>
          if tok ≠ user.mongoId then
            Except.error (Thrown.api ⟨401, "Refresh token is expired"⟩)
          else
            match generateAccessTokenAndRefreshToken db now user.mongoId with
            | Except.error e => Except.error (Thrown.api e)
            | Except.ok (accessToken, _newTok, db2) =>
              Except.ok ({ accessToken := accessToken, refreshToken := none }, db2)

/-- Lines 180–225: `generateAndAccessToken`.  The `catch (error) {}` block
is empty: every failure of the `try` block is discarded and the handler
resolves without sending anything. -/
def generateAndAccessToken (db : List StoredUser) (now : Nat)
    (req : RefreshReq) : HResult RefreshResponse × List StoredUser :=
  match generateAndAccessTokenTry db now req with
  | Except.ok (r, db2) => (HResult.ok r, db2)
  | Except.error _ => (HResult.silent, db)

structure ChangePasswordReq where
  oldPassword : String
  newPassword : String

/-- Lines 228–240: the `try` block of `changePassword`.  When the user is
absent, `user.isPasswordCorrect(...)` dereferences `null` and throws a
`TypeError`.  On success it assigns `user.password = newPassword` and
saves the record (the pre-save hook stores the hash); no other field of
the loaded document is modified, and no response is sent. -/
def changePasswordTry (db : List StoredUser) (userId : JsStr)
    (req : ChangePasswordReq) : Except Thrown (List StoredUser) :=
  match findById db userId with
  | none => Except.error Thrown.typeError
  | some user =>
    if isPasswordCorrect user req.oldPassword = false then
      Except.error (Thrown.api ⟨400, "Password is wrong"⟩)
    else
      Except.ok (updateById db user.mongoId
        (fun _ => { user with password := hashPassword req.newPassword }))

/-- Lines 227–244: `changePassword`.  The `catch` rethrows
`ApiError(500, "Error in change password")`. -/
def changePassword (db : List StoredUser) (userId : JsStr)
    (req : ChangePasswordReq) : HResult Unit × List StoredUser :=
  match changePasswordTry db userId req with
  | Except.ok db2 => (HResult.ok (), db2)
  | Except.error _ => (HResult.err ⟨500, "Error in change password"⟩, db)

/-! Concrete fixtures used by the theorems: a single registered user and
the state reached by the (code-reachable) login that issues tokens for
them at time 0. -/

def alice0 : StoredUser :=
  { mongoId := JsStr.lit "u1", username := "alice", email := "alice@mail.com",
    fullName := "Alice", password := hashPassword "p@ss1",
    refreshToken := none }

/-- The access token issued for `alice0` at time 0. -/
def freshA : JsStr := JsStr.jwt (JsStr.lit "u1") ACCESS_TOKEN_EXPIRY ACCESS_TOKEN_SECRET

/-- The refresh token issued for `alice0` at time 0. -/
def freshR : JsStr := JsStr.jwt (JsStr.lit "u1") REFRESH_TOKEN_EXPIRY REFRESS_TOKEN_SECRET

/-- `alice0` after token issuance at time 0: the new refresh token
persisted. -/
def alice1 : StoredUser :=
  { alice0 with refreshToken := some freshR }

def aliceProj1 : UserProjection := projectNoPassword alice1

/-! Helper lemmas. -/

/-- A signed token is a strictly larger term than its own payload, so a
token string never equals the plain id it embeds. -/
theorem jwt_ne_payload (p : JsStr) (e : Nat) (s : String) : JsStr.jwt p e s ≠ p := by
  intro h
  have h1 : sizeOf (JsStr.jwt p e s) = sizeOf p := congrArg sizeOf h
  simp at h1
  omega

/-- The `try` block of the refresh handler can never reach its success
return: success requires the presented token to equal `user._id`, while the
user was found by the identity claim embedded in that very token, which
forces the token to equal its own payload — impossible. -/
theorem refreshTry_not_ok (db : List StoredUser) (now : Nat) (req : RefreshReq)
    (x : RefreshResponse × List StoredUser) :
    ¬ generateAndAccessTokenTry db now req = Except.ok x := by
  intro h
  unfold generateAndAccessTokenTry at h
  cases hj : jsOrTok req.cookieRefreshToken req.bodyRefreshToken with
  | none => rw [hj] at h; exact Except.noConfusion h
  | some tok =>
    rw [hj] at h
    dsimp only at h
    by_cases htr : tok.truthy = false
    · rw [if_pos htr] at h; exact Except.noConfusion h
    · rw [if_neg htr] at h
      cases hv : jwtVerify tok REFRESS_TOKEN_SECRET now with
      | none => rw [hv] at h; exact Except.noConfusion h
      | some decodedId =>
        rw [hv] at h
        dsimp only at h
        cases hf : findById db decodedId with
        | none => rw [hf] at h; exact Except.noConfusion h
        | some user =>
          rw [hf] at h
          dsimp only at h
          by_cases hne : tok ≠ user.mongoId
          · rw [if_pos hne] at h; exact Except.noConfusion h
          · have htok : tok = user.mongoId := not_not.mp hne
            simp only [findById] at hf
            have hbe : (user.mongoId == decodedId) = true :=
              List.find?_some (p := fun u : StoredUser => u.mongoId == decodedId) hf
            have hid : user.mongoId = decodedId := by simpa using hbe
            cases tok with
            | lit s => simp [jwtVerify] at hv
            | jwt payload exp sig =>
              rw [jwtVerify] at hv
              split at hv
              · split at hv
                · have hpay : payload = decodedId := Option.some.inj hv
                  have : JsStr.jwt payload exp sig = payload := by
                    rw [htok, hid, ← hpay]
                  exact jwt_ne_payload payload exp sig this
                · exact Option.noConfusion hv
              · exact Option.noConfusion hv

/-! Claim theorems. -/

/-- C1: Refutation by evaluation.  With a presented refresh token carrying a
valid signature and expiry that is *exactly equal* to the user's persisted
`refreshToken`, the refresh handler does not succeed and does not fail with
a typed stale-token outcome: line 201 compares the token to `user._id`
instead of the persisted token, and the resulting throw is discarded by the
empty `catch`, leaving the handler silent and the store unchanged. -/
theorem refresh_rejects_token_matching_stored :
    alice1.refreshToken = some freshR
    ∧ jwtVerify freshR REFRESS_TOKEN_SECRET 1 = some alice1.mongoId
    ∧ thrownOf (generateAndAccessTokenTry [alice1] 1 ⟨some freshR, none⟩) =
        some (Thrown.api ⟨401, "Refresh token is expired"⟩)
    ∧ generateAndAccessToken [alice1] 1 ⟨some freshR, none⟩ =
        (HResult.silent, [alice1]) := by
  decide

/-- C2: Refutation by evaluation.  Login with the *correct* password fails
(line 118 throws when `isPasswordValid` is true, surfacing as the generic
500), while login with a *wrong* password proceeds to issue and persist
tokens. -/
theorem login_password_check_inverted :
    isPasswordCorrect alice0 "p@ss1" = true
    ∧ (loginUser [alice0] 0 ⟨none, some "alice", "p@ss1"⟩).1 =
        HResult.err ⟨500, "Error in login page"⟩
    ∧ isPasswordCorrect alice0 "nope" = false
    ∧ (loginUser [alice0] 0 ⟨none, some "alice", "nope"⟩).1.isOk = true := by
  decide

/-- C3: Refutation by evaluation.  A refresh request with no token present
throws `ApiError(401, "Unauthorised request")` inside the `try` block, but
the empty `catch` (line 224) discards it: the handler terminates silently,
producing neither a success nor an error outcome. -/
theorem refresh_swallows_all_failures :
    thrownOf (generateAndAccessTokenTry [alice1] 0 ⟨none, none⟩) =
        some (Thrown.api ⟨401, "Unauthorised request"⟩)
    ∧ generateAndAccessToken [alice1] 0 ⟨none, none⟩ =
        (HResult.silent, [alice1]) := by
  decide

/-- C4: Refutation.  The refresh handler never succeeds at all — its
success branch is unreachable, so no call ever issues, returns or rotates
a token pair.  In particular, presenting the refresh token persisted by
the (code-reachable) login yields a silent outcome with the store
unchanged, instead of the specified rotation. -/
theorem refresh_never_succeeds_and_fresh_token_fails :
    (∀ db now req, (generateAndAccessToken db now req).1 = HResult.silent)
    ∧ (loginUser [alice0] 0 ⟨none, some "alice", "nope"⟩).2 = [alice1]
    ∧ alice1.refreshToken = some freshR
    ∧ generateAndAccessToken [alice1] 1 ⟨some freshR, none⟩ =
        (HResult.silent, [alice1]) := by
  refine ⟨?_, by decide, by decide, by decide⟩
  intro db now req
  cases hx : generateAndAccessTokenTry db now req with
  | ok x => exact absurd hx (refreshTry_not_ok db now req x)
  | error e => simp [generateAndAccessToken, hx]

/-- C5: Refutation by evaluation.  Logout leaves the persisted
`refreshToken` untouched: the update `$set: { refreshToken: undefined }`
is stripped by Mongoose, so the user logged out with token `freshR` still
has `refreshToken = some freshR` rather than `null`. -/
theorem logout_leaves_refresh_token_set :
    logoutPage [alice1] (JsStr.lit "u1") = (HResult.ok (), [alice1])
    ∧ alice1.refreshToken = some freshR := by
  decide

/-- C7: Refutation by evaluation.  The user projection returned by a
successful login still contains the stored refresh token:
`.select("-password", refreshToken)` removes only the password. -/
theorem login_projection_leaks_refresh_token :
    (loginUser [alice0] 0 ⟨none, some "alice", "nope"⟩).1 =
        HResult.ok { user := some aliceProj1, accessToken := freshA,
                     refreshToken := freshR }
    ∧ aliceProj1.refreshToken = some freshR := by
  decide

/-- C8: For every stored user and correct `oldPassword`, `changePassword`
succeeds and the only record it may alter is that user's, which it replaces
by the same record with *only* the password hash updated — `refreshToken`
and every identity field are carried over unchanged. -/
theorem changePassword_updates_only_password
    (db : List StoredUser) (uid : JsStr) (req : ChangePasswordReq)
    (user : StoredUser)
    (hfind : findById db uid = some user)
    (hpw : isPasswordCorrect user req.oldPassword = true) :
    (changePassword db uid req).1 = HResult.ok ()
    ∧ { user with password := hashPassword req.newPassword } ∈
        (changePassword db uid req).2
    ∧ ∀ v ∈ (changePassword db uid req).2,
        v ∈ db ∨ v = { user with password := hashPassword req.newPassword } := by
  have huser : user ∈ db :=
    List.mem_of_find?_eq_some (p := fun u : StoredUser => u.mongoId == uid) hfind
  have hcp : changePassword db uid req =
      (HResult.ok (), updateById db user.mongoId
        (fun _ => { user with password := hashPassword req.newPassword })) := by
    unfold changePassword changePasswordTry
    rw [hfind]
    simp [hpw]
  refine ⟨by rw [hcp], ?_, ?_⟩
  · rw [hcp]
    exact List.mem_map.mpr ⟨user, huser, by simp [updateById]⟩
  · intro v hv
    rw [hcp] at hv
    obtain ⟨u, hu, huv⟩ := List.mem_map.mp hv
    by_cases hid : u.mongoId = user.mongoId
    · right
      rw [← huv]
      simp [hid]
    · left
      rw [← huv]
      simpa [hid] using hu

/-- C8 witness: the frame theorem applied to the concrete store `[alice0]`
with the correct old password. -/
theorem changePassword_updates_only_password_witness :
    (changePassword [alice0] (JsStr.lit "u1") ⟨"p@ss1", "newpw"⟩).1 = HResult.ok ()
    ∧ { alice0 with password := hashPassword "newpw" } ∈
        (changePassword [alice0] (JsStr.lit "u1") ⟨"p@ss1", "newpw"⟩).2
    ∧ ∀ v ∈ (changePassword [alice0] (JsStr.lit "u1") ⟨"p@ss1", "newpw"⟩).2,
        v ∈ [alice0] ∨ v = { alice0 with password := hashPassword "newpw" } :=
  changePassword_updates_only_password [alice0] (JsStr.lit "u1")
    ⟨"p@ss1", "newpw"⟩ alice0 (by decide) (by decide)

/-- C9: every failure path inside Login surfaces as the one generic
`ApiError(500, "Error in login page")`: any login call is either a success
or exactly that error, and two *different* inner failures (unknown user
vs. the password-check branch) produce identical outer errors. -/
theorem loginUser_failures_all_generic_500 :
    (∀ db now req, (loginUser db now req).1.isOk = true
        ∨ (loginUser db now req).1 = HResult.err ⟨500, "Error in login page"⟩)
    ∧ thrownOf (loginUserTry [] 0 ⟨some "x@y", none, "p"⟩) =
        some (Thrown.api ⟨404, "fields are required"⟩)
    ∧ thrownOf (loginUserTry [alice0] 0 ⟨none, some "alice", "p@ss1"⟩) =
        some (Thrown.api ⟨404, "Password doesn`t match"⟩)
    ∧ (loginUser [] 0 ⟨some "x@y", none, "p"⟩).1 =
        HResult.err ⟨500, "Error in login page"⟩
    ∧ (loginUser [alice0] 0 ⟨none, some "alice", "p@ss1"⟩).1 =
        HResult.err ⟨500, "Error in login page"⟩ := by
  refine ⟨?_, by decide, by decide, by decide, by decide⟩
  intro db now req
  cases hx : loginUserTry db now req with
  | ok r =>
    obtain ⟨resp, db2⟩ := r
    left
    simp [loginUser, hx, HResult.isOk]
  | error e =>
    right
    simp [loginUser, hx]

/-- C10 counterexample: a request with `email = " "` (whitespace, present,
truthy) is rejected by the presence check even though the first present
identifier value is `" "`, not exactly the empty string. -/
theorem login_check_rejection_not_exact_empty :
    loginFieldCheckFails (some " ") none = true
    ∧ firstPresentIdentifier (some " ") none ≠ some "" := by
  decide

/-- C10 (amended): the presence check rejects only when the first present
identifier value (email, else username) *trims to* the empty string; a
request with both identifiers entirely absent passes the check, and the
flow then reaches the credential-store lookup and beyond (here all the way
to the password-check branch, the lookup having matched the stored user
because `undefined` criteria are stripped). -/
theorem login_check_rejects_only_trimmed_empty :
    (∀ e u, loginFieldCheckFails e u = true →
        (firstPresentIdentifier e u).map jsTrim = some "")
    ∧ loginFieldCheckFails none none = false
    ∧ thrownOf (loginUserTry [alice0] 0 ⟨none, none, "p@ss1"⟩) =
        some (Thrown.api ⟨404, "Password doesn`t match"⟩) := by
  refine ⟨?_, by decide, by decide⟩
  intro e u h
  cases e with
  | none =>
    cases u with
    | none => simp [loginFieldCheckFails, jsOrStr, jsTruthyStr] at h
    | some s =>
      simp [loginFieldCheckFails, jsOrStr, jsTruthyStr] at h
      simp [firstPresentIdentifier, h]
  | some e2 =>
    by_cases he : e2 = ""
    · subst he
      simp [firstPresentIdentifier]
      decide
    · have ht : jsTruthyStr (some e2) = true := by simp [jsTruthyStr, he]
      simp [loginFieldCheckFails, jsOrStr, ht] at h
      simp [firstPresentIdentifier, h]

/-- C10 witness: the amended statement applied at the rejected whitespace
input. -/
theorem login_check_rejects_only_trimmed_empty_witness :
    (firstPresentIdentifier (some " ") none).map jsTrim = some "" :=
  login_check_rejects_only_trimmed_empty.1 (some " ") none (by decide)
